import Mathlib

/-!
Verification of the Express auth/notification backend (flat-file credential
store, bcrypt+JWT auth service, Telegram notification gateway).

The definitions below are a shallow embedding of the server source
(`src/unnamed/part_000`): `readDB`/`writeDB` model the flat-file snapshot
cycle, `register`/`login`/`getCurrentUser`/`notifyWithdrawal` model the four
route handlers, `authenticateToken` models the JWT middleware. External
libraries (bcryptjs, jsonwebtoken, axios, the filesystem) are modelled by
explicit data: a hash records the password/cost/salt it was built from, a
token records its claims and a signature tying the signing key to the
claims, the file is an explicit state, and outbound Telegram calls are
collected in a list.
-/

/-- Model of a bcrypt hash (bcryptjs). The hash is opaque to the server:
it is only ever created by `bcrypt.hash` and consumed by `bcrypt.compare`,
so we record the password, cost factor, and salt that produced it. Two
hashes of the same password with different salts are distinct values, yet
both compare true against that password, as with real bcrypt. -/
structure Hash where
  pw : String
  cost : Nat
  salt : Nat
deriving DecidableEq, Repr

/-- Model of `bcrypt.hash(password, 10)`: salted one-way hash. -/
def bcryptHash (password : String) (cost salt : Nat) : Hash :=
  ⟨password, cost, salt⟩

/-- Model of `bcrypt.compare(password, hash)`: re-derives the hash from the candidate
password and the stored salt and compares. -/
def bcryptCompare (password : String) (h : Hash) : Bool :=
  password == h.pw

/-- The `User` record persisted in `db.json`. -/
structure User where
  id : String
  name : String
  email : String
  passwordHash : Hash
deriving DecidableEq, Repr

/-- The credential-store snapshot: the whole `db.json` content. -/
structure Snapshot where
  users : List User
deriving DecidableEq, Repr

/-- State of the backing file `db.json` as `fs.readFile` + `JSON.parse`
can encounter it: absent, unreadable (I/O error), readable but not valid
JSON, or a parsed snapshot. -/
inductive FileState where
  | missing
  | unreadable
  | unparseable
  | content (snap : Snapshot)
deriving DecidableEq, Repr

/-- The `readDB` helper: reads and parses `db.json`; any failure in the `try` block
(missing file, read error, parse error) is caught and replaced by the
default structure `{ users: [] }`. -/
def readDB : FileState → Snapshot
  | .content snap => snap
  | _ => ⟨[]⟩

/-- The `writeDB` helper: serializes the snapshot and overwrites the backing file. -/
def writeDB (snap : Snapshot) : FileState :=
  .content snap

/-- The JWT payload `{ id, name, email }` signed into every issued token. -/
structure Claims where
  id : String
  name : String
  email : String
deriving DecidableEq, Repr

/-- Model of a JWT signature: it binds the signing key to the signed
payload, so verification with the same secret succeeds exactly when
neither the payload nor the signature was tampered with. -/
structure Sig where
  key : String
  payload : Claims
deriving DecidableEq, Repr

/-- Model of a signed JWT: claims, signature, and expiry instant. -/
structure Token where
  claims : Claims
  sig : Sig
  exp : Nat
deriving DecidableEq, Repr

/-- The token lifetime of one day (the `expiresIn` option), in seconds. -/
def oneDay : Nat := 86400

/-- Model of `jwt.sign(payload, JWT_SECRET, expiresIn one day)`. -/
def jwtSign (payload : Claims) (secret : String) (now expiresIn : Nat) : Token :=
  { claims := payload, sig := ⟨secret, payload⟩, exp := now + expiresIn }

/-- Model of `jwt.verify(token, JWT_SECRET)` on a well-formed token: succeeds iff the
signature matches the secret and the claims, and the token is not expired. -/
def jwtVerify (t : Token) (secret : String) (now : Nat) : Option Claims :=
  if t.sig = ⟨secret, t.claims⟩ ∧ now < t.exp then some t.claims else none

/-- A token string as it travels on the wire: either garbage (any string
that does not decode to a signed token, e.g. the empty string) or an
encoded signed token. -/
inductive WireToken where
  | raw (s : String)
  | signed (t : Token)
deriving DecidableEq, Repr

/-- The `Authorization` header as the middleware sees it after
`authHeader && authHeader.split(space)[1]`: absent (undefined header),
present but the empty string (falsy, so `&&` yields `""` which is *not*
`== null`), a scheme with no second space-separated part (`split[1]` is
undefined), or a scheme followed by a token. -/
inductive AuthHeader where
  | absent
  | emptyHeader
  | schemeOnly (scheme : String)
  | bearer (scheme : String) (tok : WireToken)
deriving DecidableEq, Repr

/-- The extraction `const token = authHeader && authHeader.split(space)[1]` followed by the
`token == null` test: `none` is the `== null` case (header undefined, or no
second part). An empty header yields the empty-string token, which is not
null and proceeds to verification. -/
def extractToken : AuthHeader → Option WireToken
  | .absent => none
  | .emptyHeader => some (.raw "")
  | .schemeOnly _ => none
  | .bearer _ t => some t

/-- Model of `jwt.verify` on a wire value: a string that is not an encoded signed
token fails to verify. -/
def jwtVerifyWire (w : WireToken) (secret : String) (now : Nat) : Option Claims :=
  match w with
  | .raw _ => none
  | .signed t => jwtVerify t secret now

/-- Outcome of the `authenticateToken` middleware. -/
inductive AuthOutcome where
  | missing
  | invalid
  | ok (claims : Claims)
deriving DecidableEq, Repr

/-- The `authenticateToken` middleware: 401 `Token not provided` when no
token could be extracted, 403 `Invalid token` when `jwt.verify` errs,
otherwise attaches the claims and calls `next()`. -/
def authenticateToken (h : AuthHeader) (secret : String) (now : Nat) : AuthOutcome :=
  match extractToken h with
  | none => .missing
  | some w =>
    match jwtVerifyWire w secret now with
    | none => .invalid
    | some c => .ok c

/-- JSON response bodies produced by the four routes. -/
inductive RespBody where
  | msg (m : String)
  | userToken (user : Claims) (token : Token)
  | userView (id name email : String)
  | success (m : String)
deriving DecidableEq, Repr

/-- An HTTP response: status code and JSON body. -/
structure Response where
  status : Nat
  body : RespBody
deriving DecidableEq, Repr

/-- JavaScript truthiness of an optional string field of `req.body`:
`undefined` and the empty string are falsy. -/
def truthy : Option String → Bool
  | none => false
  | some s => !(s == "")

/-- Body of `POST /api/auth/register`. Each field may be absent. -/
structure RegisterReq where
  name : Option String
  email : Option String
  password : Option String
deriving DecidableEq, Repr

/-- The `POST /api/auth/register` handler. `freshId` is the value produced
by `uuidv4()`, `salt` the salt drawn by `bcrypt.hash`, `now` the issuance
instant; the result is the response together with the file state after the
handler ran. -/
def register (req : RegisterReq) (file : FileState) (secret freshId : String)
    (salt now : Nat) : Response × FileState :=
  if !(truthy req.name && truthy req.email && truthy req.password) then
    (⟨400, .msg "Name, email, and password are required"⟩, file)
  else
    let name := req.name.getD ""
    let email := req.email.getD ""
    let password := req.password.getD ""
    let db := readDB file
    match db.users.find? (fun u => u.email == email) with
    | some _ => (⟨409, .msg "User with this email already exists"⟩, file)
    | none =>
      let passwordHash := bcryptHash password 10 salt
      let newUser : User := ⟨freshId, name, email, passwordHash⟩
      let db2 : Snapshot := ⟨db.users ++ [newUser]⟩
      let file2 := writeDB db2
      let userPayload : Claims := ⟨newUser.id, newUser.name, newUser.email⟩
      let token := jwtSign userPayload secret now oneDay
      (⟨201, .userToken userPayload token⟩, file2)

/-- Body of `POST /api/auth/login`. -/
structure LoginReq where
  email : Option String
  password : Option String
deriving DecidableEq, Repr

/-- The `POST /api/auth/login` handler. -/
def login (req : LoginReq) (file : FileState) (secret : String) (now : Nat) :
    Response × FileState :=
  if !(truthy req.email && truthy req.password) then
    (⟨400, .msg "Email and password are required"⟩, file)
  else
    let email := req.email.getD ""
    let password := req.password.getD ""
    let db := readDB file
    match db.users.find? (fun u => u.email == email) with
    | none => (⟨401, .msg "Invalid credentials"⟩, file)
    | some user =>
      if !(bcryptCompare password user.passwordHash) then
        (⟨401, .msg "Invalid credentials"⟩, file)
      else
        let userPayload : Claims := ⟨user.id, user.name, user.email⟩
        (⟨200, .userToken userPayload (jwtSign userPayload secret now oneDay)⟩, file)

/-- The `GET /api/auth/me` route: `authenticateToken` middleware, then the
lookup-by-id handler. Read-only: it never writes the file. -/
def getCurrentUser (header : AuthHeader) (file : FileState) (secret : String)
    (now : Nat) : Response :=
  match authenticateToken header secret now with
  | .missing => ⟨401, .msg "Token not provided"⟩
  | .invalid => ⟨403, .msg "Invalid token"⟩
  | .ok claims =>
    let db := readDB file
    match db.users.find? (fun u => u.id == claims.id) with
    | none => ⟨404, .msg "User not found"⟩
    | some user => ⟨200, .userView user.id user.name user.email⟩

/-- A JSON value as it may appear in `req.body` of the withdraw route
(the frontend sends strings, but the route only tests truthiness, so
numbers are modelled too; `0` and `""` are falsy). -/
inductive JsonVal where
  | str (s : String)
  | num (n : Int)
deriving DecidableEq, Repr

/-- JavaScript truthiness of an optional JSON field. -/
def truthyVal : Option JsonVal → Bool
  | none => false
  | some (.str s) => !(s == "")
  | some (.num n) => !(n == 0)

/-- String interpolation of a JSON value into the template literal. -/
def jsonValText : JsonVal → String
  | .str s => s
  | .num n => toString n

/-- One outbound `axios.post` call to the Telegram API. -/
structure TelegramCall where
  url : String
  chat_id : String
  text : String
  parse_mode : String
deriving DecidableEq, Repr

/-- The two environment variables read by the withdraw route. -/
structure Env where
  botToken : Option String
  chatId : Option String
deriving DecidableEq, Repr

/-- The template-literal message of the withdraw route, with `amount` and
`address` embedded verbatim. -/
def withdrawMessage (amount address : String) : String :=
  "\n    🚨 *New Withdrawal Request* 🚨\n\n    *Amount:* " ++ amount
    ++ " USD\n    *Address:* `" ++ address
    ++ "`\n\n    Please review and process this request.\n  "

/-- The `POST /api/notifications/withdraw` handler. `transportOk` says
whether the single `axios.post` succeeds; the second component lists the
outbound calls the handler performed. -/
def notifyWithdrawal (amount address : Option JsonVal) (env : Env)
    (transportOk : Bool) : Response × List TelegramCall :=
  if !(truthyVal amount && truthyVal address) then
    (⟨400, .msg "Amount and address are required."⟩, [])
  else
    if !(truthy env.botToken && truthy env.chatId) then
      (⟨500, .msg "Server configuration error."⟩, [])
    else
      let message := withdrawMessage (jsonValText (amount.getD (.str "")))
        (jsonValText (address.getD (.str "")))
      let url := "https://api.telegram.org/bot" ++ env.botToken.getD "" ++ "/sendMessage"
      let call : TelegramCall := ⟨url, env.chatId.getD "", message, "Markdown"⟩
      if transportOk then
        (⟨200, .success "Notification sent successfully."⟩, [call])
      else
        (⟨500, .msg "Failed to send notification."⟩, [call])

/-- C4: `load` never fails: a missing, unreadable, or unparseable backing
file yields the empty snapshot `{users: []}`, and a parseable file yields
its content; `readDB` is total, no error escapes. -/
theorem C4_load_never_fails :
    readDB .missing = ⟨[]⟩ ∧ readDB .unreadable = ⟨[]⟩ ∧
    readDB .unparseable = ⟨[]⟩ ∧ ∀ snap : Snapshot, readDB (.content snap) = snap :=
  ⟨rfl, rfl, rfl, fun _ => rfl⟩

/-- Branch lemma: `register` with a missing or falsy field answers 400 and
leaves the file untouched. -/
theorem register_missing_field (req : RegisterReq) (file : FileState)
    (secret freshId : String) (salt now : Nat)
    (h : (truthy req.name && truthy req.email && truthy req.password) = false) :
    register req file secret freshId salt now =
      (⟨400, .msg "Name, email, and password are required"⟩, file) := by
  simp [register, h]

/-- Branch lemma: `register` answers 409 and does not write when the email is
already present. -/
theorem register_email_taken (req : RegisterReq) (file : FileState)
    (secret freshId : String) (salt now : Nat) (u : User)
    (h1 : truthy req.name = true) (h2 : truthy req.email = true)
    (h3 : truthy req.password = true)
    (hfind : (readDB file).users.find? (fun x => x.email == req.email.getD "") = some u) :
    register req file secret freshId salt now =
      (⟨409, .msg "User with this email already exists"⟩, file) := by
  simp [register, h1, h2, h3, hfind]

/-- Branch lemma: the full success behaviour of `register`: 201 with the
public payload and a fresh token, and the file rewritten with the new user
appended at the end. -/
theorem register_success (req : RegisterReq) (file : FileState)
    (secret freshId : String) (salt now : Nat)
    (h1 : truthy req.name = true) (h2 : truthy req.email = true)
    (h3 : truthy req.password = true)
    (hfind : (readDB file).users.find? (fun u => u.email == req.email.getD "") = none) :
    register req file secret freshId salt now =
      (⟨201, .userToken ⟨freshId, req.name.getD "", req.email.getD ""⟩
          (jwtSign ⟨freshId, req.name.getD "", req.email.getD ""⟩ secret now oneDay)⟩,
        .content ⟨(readDB file).users ++
          [⟨freshId, req.name.getD "", req.email.getD "",
            bcryptHash (req.password.getD "") 10 salt⟩]⟩) := by
  simp [register, h1, h2, h3, hfind, writeDB]

/-- Branch lemma: `login` when no record matches the email. -/
theorem login_no_user (req : LoginReq) (file : FileState) (secret : String) (now : Nat)
    (h1 : truthy req.email = true) (h2 : truthy req.password = true)
    (hfind : (readDB file).users.find? (fun u => u.email == req.email.getD "") = none) :
    login req file secret now = (⟨401, .msg "Invalid credentials"⟩, file) := by
  simp [login, h1, h2, hfind]

/-- Branch lemma: `login` when the record exists but the password hash does
not match. -/
theorem login_bad_password (req : LoginReq) (file : FileState) (secret : String)
    (now : Nat) (u : User)
    (h1 : truthy req.email = true) (h2 : truthy req.password = true)
    (hfind : (readDB file).users.find? (fun x => x.email == req.email.getD "") = some u)
    (hcmp : bcryptCompare (req.password.getD "") u.passwordHash = false) :
    login req file secret now = (⟨401, .msg "Invalid credentials"⟩, file) := by
  simp [login, h1, h2, hfind, hcmp]

/-- Branch lemma: successful `login`. -/
theorem login_success (req : LoginReq) (file : FileState) (secret : String)
    (now : Nat) (u : User)
    (h1 : truthy req.email = true) (h2 : truthy req.password = true)
    (hfind : (readDB file).users.find? (fun x => x.email == req.email.getD "") = some u)
    (hcmp : bcryptCompare (req.password.getD "") u.passwordHash = true) :
    login req file secret now =
      (⟨200, .userToken ⟨u.id, u.name, u.email⟩
        (jwtSign ⟨u.id, u.name, u.email⟩ secret now oneDay)⟩, file) := by
  simp [login, h1, h2, hfind, hcmp]

/-- Branch lemma: a well-signed unexpired token passes the middleware with
its own claims. -/
theorem authenticate_signed (t : Token) (secret : String) (now : Nat) (scheme : String)
    (hsig : t.sig = ⟨secret, t.claims⟩) (hexp : now < t.exp) :
    authenticateToken (.bearer scheme (.signed t)) secret now = .ok t.claims := by
  simp [authenticateToken, extractToken, jwtVerifyWire, jwtVerify, hsig, hexp]

/-- C1: a registration with all three fields present and a not-yet-stored
email issues a token that the middleware accepts, and the id in the
resulting claims resolves through `GET /auth/me` (on the post-registration
store) to a user carrying exactly the name and email supplied at
registration. `freshId` not colliding with a stored id reflects the specified
"freshly generated unique id" behaviour of `uuidv4`. -/
theorem C1_register_token_roundtrip (req : RegisterReq) (file : FileState)
    (secret freshId : String) (salt now now2 : Nat)
    (h1 : truthy req.name = true) (h2 : truthy req.email = true)
    (h3 : truthy req.password = true)
    (hemail : (readDB file).users.find? (fun u => u.email == req.email.getD "") = none)
    (hid : ∀ u ∈ (readDB file).users, u.id ≠ freshId)
    (hnow : now2 < now + oneDay) :
    ∃ (payload : Claims) (t : Token) (file2 : FileState),
      register req file secret freshId salt now = (⟨201, .userToken payload t⟩, file2) ∧
      payload = ⟨freshId, req.name.getD "", req.email.getD ""⟩ ∧
      authenticateToken (.bearer "Bearer" (.signed t)) secret now2 = .ok payload ∧
      getCurrentUser (.bearer "Bearer" (.signed t)) file2 secret now2 =
        ⟨200, .userView freshId (req.name.getD "") (req.email.getD "")⟩ := by
  have hreg := register_success req file secret freshId salt now h1 h2 h3 hemail
  have hauth := authenticate_signed
    (jwtSign ⟨freshId, req.name.getD "", req.email.getD ""⟩ secret now oneDay)
    secret now2 "Bearer" rfl hnow
  refine ⟨⟨freshId, req.name.getD "", req.email.getD ""⟩,
    jwtSign ⟨freshId, req.name.getD "", req.email.getD ""⟩ secret now oneDay,
    .content ⟨(readDB file).users ++
      [⟨freshId, req.name.getD "", req.email.getD "",
        bcryptHash (req.password.getD "") 10 salt⟩]⟩,
    hreg, rfl, hauth, ?_⟩
  have hnone : (readDB file).users.find? (fun u => u.id == freshId) = none := by
    rw [List.find?_eq_none]
    intro x hx
    simpa using hid x hx
  have hauth2 : authenticateToken
      (.bearer "Bearer" (.signed ⟨⟨freshId, req.name.getD "", req.email.getD ""⟩,
        ⟨secret, ⟨freshId, req.name.getD "", req.email.getD ""⟩⟩, now + oneDay⟩))
      secret now2 = .ok ⟨freshId, req.name.getD "", req.email.getD ""⟩ := hauth
  set l := (readDB file).users with hl
  simp [getCurrentUser, hauth2, readDB, List.find?_append, jwtSign, hnone, List.find?]

/-- C1 witness at a concrete input. -/
theorem C1_register_token_roundtrip_witness :
    ∃ (payload : Claims) (t : Token) (file2 : FileState),
      register ⟨some "Alice", some "a@x.com", some "pw123"⟩ .missing "s" "id1" 0 0 =
        (⟨201, .userToken payload t⟩, file2) ∧
      payload = ⟨"id1", "Alice", "a@x.com"⟩ ∧
      authenticateToken (.bearer "Bearer" (.signed t)) "s" 1 = .ok payload ∧
      getCurrentUser (.bearer "Bearer" (.signed t)) file2 "s" 1 =
        ⟨200, .userView "id1" "Alice" "a@x.com"⟩ :=
  C1_register_token_roundtrip ⟨some "Alice", some "a@x.com", some "pw123"⟩ .missing
    "s" "id1" 0 0 1 (by decide) (by decide) (by decide) rfl
    (by simp [readDB]) (by decide)

/-- C2: two sequential registrations with all fields present, the first on a
store not containing its email: with distinct emails (the second also not
already stored) both succeed with 201; with the same email the second fails
409 `EmailTaken` and leaves the store exactly as the first call wrote it. -/
theorem C2_sequential_registration (req1 req2 : RegisterReq) (file : FileState)
    (secret id1 id2 : String) (salt1 salt2 now1 now2 : Nat)
    (ha1 : truthy req1.name = true) (ha2 : truthy req1.email = true)
    (ha3 : truthy req1.password = true)
    (hb1 : truthy req2.name = true) (hb2 : truthy req2.email = true)
    (hb3 : truthy req2.password = true)
    (hfresh1 : (readDB file).users.find? (fun u => u.email == req1.email.getD "") = none) :
    (register req1 file secret id1 salt1 now1).fst.status = 201 ∧
    (req2.email.getD "" ≠ req1.email.getD "" →
      (readDB file).users.find? (fun u => u.email == req2.email.getD "") = none →
      (register req2 (register req1 file secret id1 salt1 now1).snd
        secret id2 salt2 now2).fst.status = 201) ∧
    (req2.email.getD "" = req1.email.getD "" →
      register req2 (register req1 file secret id1 salt1 now1).snd secret id2 salt2 now2 =
        (⟨409, .msg "User with this email already exists"⟩,
          (register req1 file secret id1 salt1 now1).snd)) := by
  have hreg1 := register_success req1 file secret id1 salt1 now1 ha1 ha2 ha3 hfresh1
  refine ⟨by rw [hreg1], ?_, ?_⟩
  · intro hne hnone2
    have hne2 : (req1.email.getD "" == req2.email.getD "") = false := by
      simp only [beq_eq_false_iff_ne, ne_eq]
      exact fun h => hne h.symm
    have hfind2 : (readDB (register req1 file secret id1 salt1 now1).snd).users.find?
        (fun u => u.email == req2.email.getD "") = none := by
      rw [hreg1]
      set l := (readDB file).users with hl
      simp [readDB, List.find?_append, hnone2, List.find?, hne2]
    rw [register_success req2 _ secret id2 salt2 now2 hb1 hb2 hb3 hfind2]
  · intro heq
    have hfind2 : (readDB (register req1 file secret id1 salt1 now1).snd).users.find?
        (fun u => u.email == req2.email.getD "") =
        some ⟨id1, req1.name.getD "", req1.email.getD "",
          bcryptHash (req1.password.getD "") 10 salt1⟩ := by
      rw [hreg1, heq]
      set l := (readDB file).users with hl
      simp [readDB, List.find?_append, hfresh1, List.find?]
    exact register_email_taken req2 _ secret id2 salt2 now2 _ hb1 hb2 hb3 hfind2

/-- C2 witness at a concrete input (same-email case exercised end to end;
the hypotheses of the theorem are discharged concretely). -/
theorem C2_sequential_registration_witness :
    register ⟨some "Bob", some "a@x.com", some "pw456"⟩
        (register ⟨some "Alice", some "a@x.com", some "pw123"⟩ .missing "s" "id1" 0 0).snd
        "s" "id2" 0 0 =
      (⟨409, .msg "User with this email already exists"⟩,
        (register ⟨some "Alice", some "a@x.com", some "pw123"⟩ .missing "s" "id1" 0 0).snd) :=
  (C2_sequential_registration ⟨some "Alice", some "a@x.com", some "pw123"⟩
    ⟨some "Bob", some "a@x.com", some "pw456"⟩ .missing "s" "id1" "id2" 0 0 0 0
    (by decide) (by decide) (by decide) (by decide) (by decide) (by decide) rfl).2.2 rfl

/-- C3: with both fields present, a lookup miss on the email and a bcrypt
mismatch on the password produce literally the same response: status 401
with the identical message `Invalid credentials`, and no store write in
either case — the two failure causes are indistinguishable to the caller. -/
theorem C3_login_indistinguishable (req : LoginReq) (file : FileState)
    (secret : String) (now : Nat)
    (h1 : truthy req.email = true) (h2 : truthy req.password = true) :
    ((readDB file).users.find? (fun u => u.email == req.email.getD "") = none →
      login req file secret now = (⟨401, .msg "Invalid credentials"⟩, file)) ∧
    (∀ u, (readDB file).users.find? (fun x => x.email == req.email.getD "") = some u →
      bcryptCompare (req.password.getD "") u.passwordHash = false →
      login req file secret now = (⟨401, .msg "Invalid credentials"⟩, file)) := by
  exact ⟨fun hfind => login_no_user req file secret now h1 h2 hfind,
    fun u hfind hcmp => login_bad_password req file secret now u h1 h2 hfind hcmp⟩

/-- C3 witness: unknown email on the empty store. -/
theorem C3_login_indistinguishable_witness :
    login ⟨some "x@y.com", some "pw"⟩ .missing "s" 0 =
      (⟨401, .msg "Invalid credentials"⟩, .missing) :=
  (C3_login_indistinguishable ⟨some "x@y.com", some "pw"⟩ .missing "s" 0
    (by decide) (by decide)).1 rfl

/-- C10: a successful registration persists exactly the loaded snapshot with
the one new user appended at the end: previous records are unchanged and
keep their relative order. -/
theorem C10_register_append_only (req : RegisterReq) (file : FileState)
    (secret freshId : String) (salt now : Nat)
    (h1 : truthy req.name = true) (h2 : truthy req.email = true)
    (h3 : truthy req.password = true)
    (hfind : (readDB file).users.find? (fun u => u.email == req.email.getD "") = none) :
    (register req file secret freshId salt now).snd =
      .content ⟨(readDB file).users ++
        [⟨freshId, req.name.getD "", req.email.getD "",
          bcryptHash (req.password.getD "") 10 salt⟩]⟩ := by
  rw [register_success req file secret freshId salt now h1 h2 h3 hfind]

/-- C10 witness at a concrete input. -/
theorem C10_register_append_only_witness :
    (register ⟨some "Alice", some "a@x.com", some "pw123"⟩ .missing "s" "id1" 7 0).snd =
      .content ⟨[⟨"id1", "Alice", "a@x.com", bcryptHash "pw123" 10 7⟩]⟩ :=
  C10_register_append_only ⟨some "Alice", some "a@x.com", some "pw123"⟩ .missing
    "s" "id1" 7 0 (by decide) (by decide) (by decide) rfl

/-- C5: the token gate on the protected route: when no token can be
extracted from the `Authorization` header the request is answered 401
`Token not provided`; when a token is supplied but signature/expiry
verification fails it is answered 403 `Invalid token`; and the middleware
hands control to the protected handler (outcome `ok`) exactly when
verification succeeds on the supplied token. -/
theorem C5_token_gate (h : AuthHeader) (file : FileState) (secret : String)
    (now : Nat) :
    (extractToken h = none →
      authenticateToken h secret now = .missing ∧
      getCurrentUser h file secret now = ⟨401, .msg "Token not provided"⟩) ∧
    (∀ w, extractToken h = some w → jwtVerifyWire w secret now = none →
      authenticateToken h secret now = .invalid ∧
      getCurrentUser h file secret now = ⟨403, .msg "Invalid token"⟩) ∧
    (∀ w c, extractToken h = some w → jwtVerifyWire w secret now = some c →
      authenticateToken h secret now = .ok c) := by
  refine ⟨fun he => ?_, fun w he hv => ?_, fun w c he hv => ?_⟩
  · have ha : authenticateToken h secret now = .missing := by
      simp [authenticateToken, he]
    exact ⟨ha, by simp [getCurrentUser, ha]⟩
  · have ha : authenticateToken h secret now = .invalid := by
      simp [authenticateToken, he, hv]
    exact ⟨ha, by simp [getCurrentUser, ha]⟩
  · simp [authenticateToken, he, hv]

/-- C5 witness: absent header and tampered signature, concretely. -/
theorem C5_token_gate_witness :
    (authenticateToken .absent "s" 0 = .missing ∧
      getCurrentUser .absent .missing "s" 0 = ⟨401, .msg "Token not provided"⟩) ∧
    (authenticateToken
        (.bearer "Bearer" (.signed ⟨⟨"id1", "Alice", "a@x.com"⟩,
          ⟨"tampered", ⟨"id1", "Alice", "a@x.com"⟩⟩, 86400⟩)) "s" 0 = .invalid ∧
      getCurrentUser
        (.bearer "Bearer" (.signed ⟨⟨"id1", "Alice", "a@x.com"⟩,
          ⟨"tampered", ⟨"id1", "Alice", "a@x.com"⟩⟩, 86400⟩)) .missing "s" 0 =
        ⟨403, .msg "Invalid token"⟩) :=
  ⟨(C5_token_gate .absent .missing "s" 0).1 rfl,
    (C5_token_gate
      (.bearer "Bearer" (.signed ⟨⟨"id1", "Alice", "a@x.com"⟩,
        ⟨"tampered", ⟨"id1", "Alice", "a@x.com"⟩⟩, 86400⟩)) .missing "s" 0).2.1 _
      rfl (by decide)⟩

/-- C6: success responses expose only the public view. A successful
registration answers 201 with exactly the public payload
`{id, name, email}` and a token whose claims and signature cover exactly
that payload and whose expiry is one day (86400 s) after issuance; a
successful login answers 200 in the same shape for the stored user; the
current-user route answers 200 with exactly `{id, name, email}`. The
response constructors carry no `Hash` anywhere, and these equalities pin
the bodies completely, so the stored `passwordHash` appears in no
response. -/
theorem C6_public_view_and_token (file : FileState) (secret : String) (now : Nat) :
    (∀ (req : RegisterReq) (freshId : String) (salt : Nat),
      truthy req.name = true → truthy req.email = true → truthy req.password = true →
      (readDB file).users.find? (fun u => u.email == req.email.getD "") = none →
      (register req file secret freshId salt now).fst =
        ⟨201, .userToken ⟨freshId, req.name.getD "", req.email.getD ""⟩
          ⟨⟨freshId, req.name.getD "", req.email.getD ""⟩,
            ⟨secret, ⟨freshId, req.name.getD "", req.email.getD ""⟩⟩, now + 86400⟩⟩) ∧
    (∀ (req : LoginReq) (u : User),
      truthy req.email = true → truthy req.password = true →
      (readDB file).users.find? (fun x => x.email == req.email.getD "") = some u →
      bcryptCompare (req.password.getD "") u.passwordHash = true →
      (login req file secret now).fst =
        ⟨200, .userToken ⟨u.id, u.name, u.email⟩
          ⟨⟨u.id, u.name, u.email⟩, ⟨secret, ⟨u.id, u.name, u.email⟩⟩, now + 86400⟩⟩) ∧
    (∀ (header : AuthHeader) (c : Claims) (u : User),
      authenticateToken header secret now = .ok c →
      (readDB file).users.find? (fun x => x.id == c.id) = some u →
      getCurrentUser header file secret now = ⟨200, .userView u.id u.name u.email⟩) := by
  refine ⟨fun req freshId salt h1 h2 h3 hfind => ?_, fun req u h1 h2 hfind hcmp => ?_,
    fun header c u hauth hfind => ?_⟩
  · rw [register_success req file secret freshId salt now h1 h2 h3 hfind]
    rfl
  · rw [login_success req file secret now u h1 h2 hfind hcmp]
    rfl
  · simp [getCurrentUser, hauth, hfind]

/-- C6 witness: a concrete successful registration response. -/
theorem C6_public_view_and_token_witness :
    (register ⟨some "Alice", some "a@x.com", some "pw123"⟩ .missing "s" "id1" 0 0).fst =
      ⟨201, .userToken ⟨"id1", "Alice", "a@x.com"⟩
        ⟨⟨"id1", "Alice", "a@x.com"⟩, ⟨"s", ⟨"id1", "Alice", "a@x.com"⟩⟩, 0 + 86400⟩⟩ :=
  (C6_public_view_and_token .missing "s" 0).1 ⟨some "Alice", some "a@x.com", some "pw123"⟩
    "id1" 0 (by decide) (by decide) (by decide) rfl

/-- C7: the withdraw notification: with both fields present, absent bot
token or chat id configuration answers 500 `Server configuration error.`
and performs no outbound call; with configuration present the handler
performs exactly one outbound call whose message embeds amount and address
verbatim inside the fixed template, answers 200 on transport success, and
answers 500 `Failed to send notification.` on transport failure with no
retry (still exactly the one call). -/
theorem C7_withdraw_notification (amount address : Option JsonVal) (env : Env)
    (tOk : Bool) (ha : truthyVal amount = true) (hb : truthyVal address = true) :
    ((truthy env.botToken && truthy env.chatId) = false →
      notifyWithdrawal amount address env tOk =
        (⟨500, .msg "Server configuration error."⟩, [])) ∧
    ((truthy env.botToken && truthy env.chatId) = true →
      (notifyWithdrawal amount address env tOk).snd =
        [⟨"https://api.telegram.org/bot" ++ env.botToken.getD "" ++ "/sendMessage",
          env.chatId.getD "",
          "\n    🚨 *New Withdrawal Request* 🚨\n\n    *Amount:* "
            ++ jsonValText (amount.getD (.str "")) ++ " USD\n    *Address:* `"
            ++ jsonValText (address.getD (.str ""))
            ++ "`\n\n    Please review and process this request.\n  ",
          "Markdown"⟩] ∧
      (tOk = true → (notifyWithdrawal amount address env tOk).fst =
        ⟨200, .success "Notification sent successfully."⟩) ∧
      (tOk = false → (notifyWithdrawal amount address env tOk).fst =
        ⟨500, .msg "Failed to send notification."⟩)) := by
  refine ⟨fun hc => ?_, fun hc => ⟨?_, fun ht => ?_, fun ht => ?_⟩⟩
  · simp [notifyWithdrawal, ha, hb, hc]
  · cases tOk <;> simp [notifyWithdrawal, ha, hb, hc, withdrawMessage]
  · subst ht
    simp [notifyWithdrawal, ha, hb, hc]
  · subst ht
    simp [notifyWithdrawal, ha, hb, hc]

/-- C7 witness: configured, transport succeeding, concretely: the response
is 200 and the single outbound call embeds amount and address verbatim. -/
theorem C7_withdraw_notification_witness :
    (notifyWithdrawal (some (.str "100")) (some (.str "abc"))
        ⟨some "BT", some "CID"⟩ true).snd =
      [⟨"https://api.telegram.org/bot" ++ "BT" ++ "/sendMessage", "CID",
        "\n    🚨 *New Withdrawal Request* 🚨\n\n    *Amount:* "
          ++ "100" ++ " USD\n    *Address:* `" ++ "abc"
          ++ "`\n\n    Please review and process this request.\n  ",
        "Markdown"⟩] ∧
    (notifyWithdrawal (some (.str "100")) (some (.str "abc"))
        ⟨some "BT", some "CID"⟩ true).fst =
      ⟨200, .success "Notification sent successfully."⟩ :=
  ⟨((C7_withdraw_notification (some (.str "100")) (some (.str "abc"))
      ⟨some "BT", some "CID"⟩ true (by decide) (by decide)).2 (by decide)).1,
    ((C7_withdraw_notification (some (.str "100")) (some (.str "abc"))
      ⟨some "BT", some "CID"⟩ true (by decide) (by decide)).2 (by decide)).2.1 rfl⟩

/-- Frame lemma: `login` never writes the store, on any of its paths. -/
theorem login_preserves_file (req : LoginReq) (file : FileState) (secret : String)
    (now : Nat) : (login req file secret now).snd = file := by
  cases h1 : truthy req.email with
  | false => simp [login, h1]
  | true =>
    cases h2 : truthy req.password with
    | false => simp [login, h1, h2]
    | true =>
      cases hfind : (readDB file).users.find? (fun u => u.email == req.email.getD "") with
      | none => simp [login_no_user req file secret now h1 h2 hfind]
      | some u =>
        cases hcmp : bcryptCompare (req.password.getD "") u.passwordHash with
        | false => simp [login_bad_password req file secret now u h1 h2 hfind hcmp]
        | true => simp [login_success req file secret now u h1 h2 hfind hcmp]

/-- C8: email uniqueness is a sequential invariant. Starting from a store
whose emails are pairwise distinct, after any single `register` call the
stored emails are still pairwise distinct and the previously stored records
are untouched (the store is either unchanged or extended by one appended
record, so every stored user keeps the id it was created with), and `login`
never writes the store at all. The current-user route is read-only by
construction (it produces only a `Response`). -/
theorem C8_email_uniqueness_invariant (file : FileState)
    (huniq : (readDB file).users.Pairwise (fun a b => a.email ≠ b.email)) :
    (∀ (req : RegisterReq) (secret freshId : String) (salt now : Nat),
      (readDB (register req file secret freshId salt now).snd).users.Pairwise
        (fun a b => a.email ≠ b.email) ∧
      ((readDB (register req file secret freshId salt now).snd).users =
          (readDB file).users ∨
        ∃ u : User, (readDB (register req file secret freshId salt now).snd).users =
          (readDB file).users ++ [u])) ∧
    (∀ (req : LoginReq) (secret : String) (now : Nat),
      (login req file secret now).snd = file) := by
  refine ⟨fun req secret freshId salt now => ?_,
    fun req secret now => login_preserves_file req file secret now⟩
  cases h1 : truthy req.name with
  | false =>
    have hr := register_missing_field req file secret freshId salt now (by simp [h1])
    rw [hr]
    exact ⟨huniq, Or.inl rfl⟩
  | true =>
    cases h2 : truthy req.email with
    | false =>
      have hr := register_missing_field req file secret freshId salt now (by simp [h1, h2])
      rw [hr]
      exact ⟨huniq, Or.inl rfl⟩
    | true =>
      cases h3 : truthy req.password with
      | false =>
        have hr := register_missing_field req file secret freshId salt now (by simp [h1, h2, h3])
        rw [hr]
        exact ⟨huniq, Or.inl rfl⟩
      | true =>
        cases hfind : (readDB file).users.find? (fun u => u.email == req.email.getD "") with
        | some u =>
          have hr := register_email_taken req file secret freshId salt now u h1 h2 h3 hfind
          rw [hr]
          exact ⟨huniq, Or.inl rfl⟩
        | none =>
          have hs := register_success req file secret freshId salt now h1 h2 h3 hfind
          have hold : ∀ x ∈ (readDB file).users, x.email ≠ req.email.getD "" := by
            intro x hx
            simpa using List.find?_eq_none.mp hfind x hx
          constructor
          · rw [hs]
            dsimp only [readDB]
            rw [List.pairwise_append]
            refine ⟨huniq, by simp, ?_⟩
            intro a ha b hb
            rw [List.mem_singleton] at hb
            subst hb
            exact hold a ha
          · exact Or.inr ⟨⟨freshId, req.name.getD "", req.email.getD "",
              bcryptHash (req.password.getD "") 10 salt⟩, by rw [hs]; rfl⟩

/-- C8 witness: one registration on the empty store keeps emails pairwise
distinct. -/
theorem C8_email_uniqueness_invariant_witness :
    (readDB (register ⟨some "Alice", some "a@x.com", some "pw123"⟩
        .missing "s" "id1" 0 0).snd).users.Pairwise (fun a b => a.email ≠ b.email) :=
  ((C8_email_uniqueness_invariant .missing List.Pairwise.nil).1
    ⟨some "Alice", some "a@x.com", some "pw123"⟩ "s" "id1" 0 0).1

/-- C9: field presence is tested by JavaScript falsiness, not key presence:
a supplied-but-falsy field (empty-string name/email/password for register
and login; amount `0`, empty-string amount, or empty-string address for the
withdraw route) is answered 400 `MissingField` exactly as when the field is
absent, with no store write and no outbound call. -/
theorem C9_falsy_fields_rejected :
    ∀ (n e p : Option String) (file : FileState) (secret freshId : String)
      (salt now : Nat) (env : Env) (tOk : Bool) (a b : Option JsonVal),
      register ⟨some "", e, p⟩ file secret freshId salt now =
        register ⟨none, e, p⟩ file secret freshId salt now ∧
      register ⟨some "", e, p⟩ file secret freshId salt now =
        (⟨400, .msg "Name, email, and password are required"⟩, file) ∧
      register ⟨n, some "", p⟩ file secret freshId salt now =
        (⟨400, .msg "Name, email, and password are required"⟩, file) ∧
      register ⟨n, e, some ""⟩ file secret freshId salt now =
        (⟨400, .msg "Name, email, and password are required"⟩, file) ∧
      login ⟨some "", p⟩ file secret now =
        (⟨400, .msg "Email and password are required"⟩, file) ∧
      login ⟨some "", p⟩ file secret now = login ⟨none, p⟩ file secret now ∧
      login ⟨e, some ""⟩ file secret now =
        (⟨400, .msg "Email and password are required"⟩, file) ∧
      notifyWithdrawal (some (.num 0)) b env tOk =
        (⟨400, .msg "Amount and address are required."⟩, []) ∧
      notifyWithdrawal (some (.num 0)) b env tOk = notifyWithdrawal none b env tOk ∧
      notifyWithdrawal (some (.str "")) b env tOk =
        (⟨400, .msg "Amount and address are required."⟩, []) ∧
      notifyWithdrawal a (some (.str "")) env tOk =
        (⟨400, .msg "Amount and address are required."⟩, []) := by
  intro n e p file secret freshId salt now env tOk a b
  refine ⟨?_, ?_, ?_, ?_, ?_, ?_, ?_, ?_, ?_, ?_, ?_⟩ <;>
    simp [register, login, notifyWithdrawal, truthy, truthyVal]

/-- C4 witness: the fallback evaluated at the missing-file state and a
concrete stored snapshot. -/
theorem C4_load_never_fails_witness :
    readDB .missing = ⟨[]⟩ ∧
    readDB (.content ⟨[⟨"id1", "Alice", "a@x.com", bcryptHash "pw123" 10 0⟩]⟩) =
      ⟨[⟨"id1", "Alice", "a@x.com", bcryptHash "pw123" 10 0⟩]⟩ :=
  ⟨C4_load_never_fails.1,
    C4_load_never_fails.2.2.2 ⟨[⟨"id1", "Alice", "a@x.com", bcryptHash "pw123" 10 0⟩]⟩⟩

/-- C9 witness: an empty-string name is rejected 400 just like an absent
one, and a zero amount is rejected 400 just like an absent one. -/
theorem C9_falsy_fields_rejected_witness :
    register ⟨some "", some "a@x.com", some "pw123"⟩ .missing "s" "id1" 0 0 =
      (⟨400, .msg "Name, email, and password are required"⟩, .missing) ∧
    notifyWithdrawal (some (.num 0)) (some (.str "abc")) ⟨some "BT", some "CID"⟩ true =
      (⟨400, .msg "Amount and address are required."⟩, []) :=
  ⟨(C9_falsy_fields_rejected none (some "a@x.com") (some "pw123") .missing "s" "id1" 0 0
      ⟨some "BT", some "CID"⟩ true none (some (.str "abc"))).2.1,
    (C9_falsy_fields_rejected none (some "a@x.com") (some "pw123") .missing "s" "id1" 0 0
      ⟨some "BT", some "CID"⟩ true none (some (.str "abc"))).2.2.2.2.2.2.2.1⟩
